import Mathlib

/-!
Verification of the shop-selection and checkout-creation core of the
SaasFreedom bridge server (src/server.js) against its design specification.

The JavaScript core is shallowly embedded: dynamically-typed JavaScript
values become the inductive type `JSValue`, JavaScript's implicit coercions
(`String(v)`, `Number(v)`, truthiness, `typeof`, `v == null`) become
explicit total functions on `JSValue`, and each network round trip
(`fetch`) becomes an explicit outcome parameter, so that every function of
the core is a total computable Lean function.

Scope notes on the coercion model, for values that never occur in the
claims under verification: `Number(...)` of a string recognises optionally
signed decimal literals (digits, optional fraction) after trimming
whitespace and maps every other non-empty string to NaN (JavaScript
additionally accepts exponent/hex/Infinity forms); non-integer numbers
render via Lean's rational notation rather than JavaScript's decimal
notation; property access is modelled on plain objects only (arrays and
strings expose no properties here).
-/

/-- Numeric value of the JavaScript `number` type: NaN or a rational. -/
inductive JSNum where
  | nan
  | val (q : ℚ)
deriving DecidableEq

/-- A dynamically-typed JavaScript value, as the core manipulates them:
primitives, plain objects (ordered key/value fields, as `Object.entries`
enumerates them) and arrays. -/
inductive JSValue where
  | undefined
  | null
  | bool (b : Bool)
  | num (n : JSNum)
  | str (s : String)
  | obj (fields : List (String × JSValue))
  | arr (elems : List JSValue)

/-- Rendering of a number by JavaScript `String(...)`: integers render as
their decimal numerals (the only case the claims exercise). -/
def ratToJSString (q : ℚ) : String :=
  if q.den = 1 then toString q.num else toString q

mutual

/-- JavaScript `String(v)` / `ToString` coercion. -/
def jsToString : JSValue → String
  | JSValue.undefined => "undefined"
  | JSValue.null => "null"
  | JSValue.bool b => if b then "true" else "false"
  | JSValue.num JSNum.nan => "NaN"
  | JSValue.num (JSNum.val q) => ratToJSString q
  | JSValue.str s => s
  | JSValue.obj _ => "[object Object]"
  | JSValue.arr es => String.intercalate (",") (jsJoinElems es)

/-- Element rendering of `Array.prototype.join`: null and undefined
elements render as the empty string. -/
def jsJoinElems : List JSValue → List String
  | [] => []
  | JSValue.undefined :: vs => "" :: jsJoinElems vs
  | JSValue.null :: vs => "" :: jsJoinElems vs
  | v :: vs => jsToString v :: jsJoinElems vs

end

/-- JavaScript truthiness: `undefined`, `null`, `false`, `0`, `NaN` and
`""` are falsy; every object and array is truthy. -/
def truthy : JSValue → Bool
  | JSValue.undefined => false
  | JSValue.null => false
  | JSValue.bool b => b
  | JSValue.num JSNum.nan => false
  | JSValue.num (JSNum.val q) => q != 0
  | JSValue.str s => s != ""
  | JSValue.obj _ => true
  | JSValue.arr _ => true

/-- JavaScript `typeof v` (note `typeof null` is `"object"`). -/
def jsTypeof : JSValue → String
  | JSValue.undefined => "undefined"
  | JSValue.null => "object"
  | JSValue.bool _ => "boolean"
  | JSValue.num _ => "number"
  | JSValue.str _ => "string"
  | JSValue.obj _ => "object"
  | JSValue.arr _ => "object"

/-- JavaScript loose comparison `v == null`, true exactly for `null` and
`undefined`. -/
def isNullish : JSValue → Bool
  | JSValue.undefined => true
  | JSValue.null => true
  | _ => false

/-- Character class trimmed by JavaScript string-to-number coercion. -/
def isWs (c : Char) : Bool :=
  c == ' ' || c == '\t' || c == '\n' || c == '\r'

/-- Decimal value of a digit list (most significant first). -/
def digitsVal (l : List Char) : Nat :=
  l.foldl (fun a c => 10 * a + (c.toNat - 48)) 0

/-- Unsigned decimal literal: `d+`, `d+.d*` or `.d+`. -/
def parseDecimal (l : List Char) : Option ℚ :=
  let p := l.span Char.isDigit
  match p.2 with
  | [] => if p.1.isEmpty then none else some ((digitsVal p.1 : ℚ))
  | c :: fp =>
    if c == '.' then
      if fp.all Char.isDigit && !(p.1.isEmpty && fp.isEmpty) then
        some ((digitsVal p.1 : ℚ) + (digitsVal fp : ℚ) / ((10 : ℚ) ^ fp.length))
      else none
    else none

/-- JavaScript `Number(s)` on a string: trim whitespace, empty means 0,
otherwise an optionally signed decimal literal, else NaN. -/
def parseJSNumber (s : String) : JSNum :=
  let l := ((s.toList.dropWhile isWs).reverse.dropWhile isWs).reverse
  match l with
  | [] => JSNum.val 0
  | '+' :: rest => (parseDecimal rest).elim JSNum.nan JSNum.val
  | '-' :: rest => (parseDecimal rest).elim JSNum.nan (fun q => JSNum.val (-q))
  | _ => (parseDecimal l).elim JSNum.nan JSNum.val

/-- JavaScript `Number(v)` coercion; objects and arrays coerce through
their string form (`ToPrimitive` then `ToNumber`). -/
def jsToNumber : JSValue → JSNum
  | JSValue.undefined => JSNum.nan
  | JSValue.null => JSNum.val 0
  | JSValue.bool b => JSNum.val (if b then 1 else 0)
  | JSValue.num n => n
  | JSValue.str s => parseJSNumber s
  | JSValue.obj fs => parseJSNumber (jsToString (JSValue.obj fs))
  | JSValue.arr es => parseJSNumber (jsToString (JSValue.arr es))

/-- Property access `v?.k` / `v.k`: a lookup in a plain object's fields,
`undefined` otherwise (in particular on `null`/`undefined`, as optional
chaining yields). -/
def getProp (v : JSValue) (k : String) : JSValue :=
  match v with
  | JSValue.obj fs => ((fs.find? (fun p => p.1 == k)).map Prod.snd).getD JSValue.undefined
  | _ => JSValue.undefined

/-- JavaScript `Object.entries(v)`: the ordered fields of an object, index
(as string)/element pairs of an array, empty otherwise. -/
def jsEntries : JSValue → List (String × JSValue)
  | JSValue.obj fs => fs
  | JSValue.arr es => es.enum.map (fun p => (toString p.1, p.2))
  | _ => []

/-- Elements of an array value, empty for every non-array. -/
def jsElems : JSValue → List JSValue
  | JSValue.arr es => es
  | _ => []

/-- True exactly on string values (`typeof v === 'string'`). -/
def isStringVal : JSValue → Bool
  | JSValue.str _ => true
  | _ => false

/-- The string carried by a string value (only used under `isStringVal`). -/
def jsAsString : JSValue → String
  | JSValue.str s => s
  | _ => ""

/-- JavaScript `Array.isArray(v) && v.length`: non-empty array test
(server.js line 168). -/
def isNonEmptyArray : JSValue → Bool
  | JSValue.arr (_ :: _) => true
  | _ => false

/-- Embedding of JavaScript `s.startsWith(p)`: the characters of `p` are
an initial segment of the characters of `s`. -/
def jsStartsWith (s p : String) : Bool :=
  List.isPrefixOf p.toList s.toList

/-- Function `toVariantGID` (server.js lines 24-27): `String(id || '')`,
passed through when it starts with `gid://`, else wrapped as
`gid://shopify/ProductVariant/<id>`. -/
def toVariantGID (id : JSValue) : String :=
  let s := jsToString (if truthy id then id else JSValue.str "")
  if jsStartsWith s ("gid://") then s
  else "gid://shopify/ProductVariant/" ++ s

/-- Normalized quantity (server.js line 125): `Number(l?.quantity) || 1`. -/
def normQuantity (v : JSValue) : ℚ :=
  match jsToNumber v with
  | JSNum.nan => 1
  | JSNum.val q => if q = 0 then 1 else q

/-- True on the property values the line filter keeps (server.js line
119): `typeof v` is `string`, `number` or `boolean`. -/
def keepPrim (v : JSValue) : Bool :=
  match v with
  | JSValue.str _ => true
  | JSValue.num _ => true
  | JSValue.bool _ => true
  | _ => false

/-- Line-scope attribute extraction (server.js lines 114-123): guarded by
`l?.properties && typeof l.properties === 'object'`; each entry with a
nullish value is skipped, each entry whose value is a string, number or
boolean is kept as `{key: String(k), value: String(v)}`, everything else
is dropped. -/
def lineAttrs (props : JSValue) : List (String × String) :=
  if truthy props && (jsTypeof props == "object") then
    (jsEntries props).filterMap (fun kv =>
      if isNullish kv.2 then none
      else if keepPrim kv.2 then some (kv.1, jsToString kv.2)
      else none)
  else []

/-- Payload-scope attribute extraction (server.js lines 132-138): same
guard, but only nullish values are skipped; every remaining value is kept
as `{key: String(k), value: String(v)}` whatever its type. -/
def payloadAttrs (attrs : JSValue) : List (String × String) :=
  if truthy attrs && (jsTypeof attrs == "object") then
    (jsEntries attrs).filterMap (fun kv =>
      if isNullish kv.2 then none
      else some (kv.1, jsToString kv.2))
  else []

/-- Outbound line of the cartCreate mutation variables (server.js lines
124-129). `sellingPlanId` is `none` for the JavaScript `null` the code
stores when `l?.selling_plan` is falsy. -/
structure NormalizedLine where
  quantity : ℚ
  merchandiseId : String
  sellingPlanId : Option String
  attributes : List (String × String)
deriving DecidableEq

/-- Translation of one line request (server.js lines 113-130). -/
def normalizeLine (l : JSValue) : NormalizedLine :=
  { quantity := normQuantity (getProp l ("quantity"))
    merchandiseId := toVariantGID (getProp l ("id"))
    sellingPlanId :=
      if truthy (getProp l ("selling_plan")) then
        some (jsToString (getProp l ("selling_plan")))
      else none
    attributes := lineAttrs (getProp l ("properties")) }

/-- Variables of the cartCreate mutation (server.js lines 113-148). -/
structure NormalizedRequest where
  lines : List NormalizedLine
  attributes : List (String × String)
  note : String
deriving DecidableEq

/-- Payload translation performed by `createCheckout` before the network
call (server.js lines 113-148): `(payload?.lines || []).map(...)` on the
lines (the orchestrator only passes payloads whose `lines` is a non-empty
array), payload-scope attributes, and
`payload?.note ? String(payload.note) : ''`. -/
def normalizeRequest (payload : JSValue) : NormalizedRequest :=
  { lines := (jsElems (getProp payload ("lines"))).map normalizeLine
    attributes := payloadAttrs (getProp payload ("attributes"))
    note :=
      if truthy (getProp payload ("note")) then
        jsToString (getProp payload ("note"))
      else "" }

/-- One entry of `userErrors` in the cartCreate response (server.js line
109: `userErrors { field message }`). -/
structure UserError where
  field : Option String
  message : String
deriving DecidableEq

/-- The two optional chains `data?.data?.cartCreate?.userErrors` and
`data?.data?.cartCreate?.cart?.checkoutUrl` evaluated on the parsed
response body; `none` when any link of the chain is missing. -/
structure CartCreateResponse where
  userErrors : Option (List UserError)
  checkoutUrl : Option String
deriving DecidableEq

/-- Outcome of the checkout network round trip: `fail` when `fetch` or
`r.json()` throws/rejects (with the thrown message), `reply` when a JSON
body was obtained. -/
inductive Transport where
  | fail (message : String)
  | reply (resp : CartCreateResponse)
deriving DecidableEq

/-- Error kinds thrown by `createCheckout`, by throw site. -/
inductive CheckoutError where
  | transport (message : String)
  | userError (message : String)
  | missingUrl (message : String)
deriving DecidableEq

/-- Message carried by a `CheckoutError` (the `e.message` the orchestrator
reads in its catch). -/
def CheckoutError.message : CheckoutError → String
  | CheckoutError.transport m => m
  | CheckoutError.userError m => m
  | CheckoutError.missingUrl m => m

/-- The URL step of `createCheckout` (server.js lines 155-157): `if (!url)
throw new Error('checkoutUrl introuvable')`, so a missing URL and a
present-but-empty (falsy) URL fail alike; otherwise the URL is returned. -/
def checkoutUrlOutcome (url : Option String) : Except CheckoutError String :=
  match url with
  | some u =>
    if u = "" then Except.error (CheckoutError.missingUrl ("checkoutUrl introuvable"))
    else Except.ok u
  | none => Except.error (CheckoutError.missingUrl ("checkoutUrl introuvable"))

/-- Response interpretation of `createCheckout` (server.js lines 152-157):
a thrown transport error propagates; `if (errs?.length)` (true exactly on
a non-empty error list) throws the user-error messages joined with `'; '`;
otherwise the URL step decides. -/
def createCheckoutOutcome (t : Transport) : Except CheckoutError String :=
  match t with
  | Transport.fail m => Except.error (CheckoutError.transport m)
  | Transport.reply resp =>
    match resp.userErrors with
    | some (e :: es) =>
      Except.error (CheckoutError.userError
        (String.intercalate ("; ") (List.map UserError.message (e :: es))))
    | some [] => checkoutUrlOutcome resp.checkoutUrl
    | none => checkoutUrlOutcome resp.checkoutUrl

/-- Configuration of one shop (server.js lines 72-75); a missing
environment variable and an empty string are both falsy, modelled as `""`. -/
structure ShopConfig where
  domain : String
  sfApi : String
deriving DecidableEq

/-- Outcome of the health-probe network round trip: the call threw, or a
response arrived with `r.ok` as given. -/
inductive FetchOutcome where
  | thrown
  | response (ok : Bool)
deriving DecidableEq

/-- Function `healthCheck` (server.js lines 78-94) over the shop table and
the outcome of its (single, unretried) fetch. The second component counts
network calls: the guard `if (!s?.domain || !s?.sfApi) return false` fires
before any fetch (0 calls); otherwise exactly one fetch happens, a thrown
call is swallowed to `false` and a response yields `r.ok`. The function is
total: no failure path raises. -/
def healthCheck (shops : String → Option ShopConfig) (f : FetchOutcome)
    (shopKey : String) : Bool × Nat :=
  match shops shopKey with
  | none => (false, 0)
  | some s =>
    if s.domain == "" || s.sfApi == "" then (false, 0)
    else
      match f with
      | FetchOutcome.thrown => (false, 1)
      | FetchOutcome.response ok => (ok, 1)

/-- Function `pickTargetShop` (server.js lines 96-100) over an assignment
of probe outcomes (`probe k` is the result of `await healthCheck(k)`):
`'B'` if B probes healthy, else `'C'` if C does, else `null`. -/
def pickTargetShop (probe : String → Bool) : Option String :=
  if probe ("B") then some ("B")
  else if probe ("C") then some ("C")
  else none

/-- HTTP response of the `/bridge` handler: a JSON error body with a
status code, or a redirect with a `Location` URL. -/
inductive BridgeResponse where
  | json (status : Nat) (error : String)
  | redirect (status : Nat) (location : String)
deriving DecidableEq

/-- The fallback `e?.message || 'Erreur interne'` of the orchestrator's
catch (server.js line 178). -/
def orDefaultMsg (m : String) : String :=
  if m == "" then "Erreur interne" else m

/-- Body selection of the orchestrator (server.js lines 164-166): when
`req.body && typeof req.body.payload === 'string'`, the `payload` string
is parsed (`parse` abstracts `JSON.parse`; `Except.error m` is a thrown
`SyntaxError` with message `m`), otherwise the body is used directly. -/
def parseBody (parse : String → Except String JSValue) (reqBody : JSValue) :
    Except String JSValue :=
  if truthy reqBody && isStringVal (getProp reqBody ("payload")) then
    parse (jsAsString (getProp reqBody ("payload")))
  else Except.ok reqBody

/-- The `/bridge` request handler (server.js lines 161-180). The whole
body sits in one `try`; any throw (a `JSON.parse` failure or a
`createCheckout` error) lands in the catch, which answers 500 with
`e?.message || 'Erreur interne'` — so no failure escapes uncaught.
`probe` abstracts the health probes, `t` the checkout round trip. -/
def bridgeHandler (parse : String → Except String JSValue)
    (probe : String → Bool) (t : Transport) (reqBody : JSValue) :
    BridgeResponse :=
  match parseBody parse reqBody with
  | Except.error m => BridgeResponse.json 500 (orDefaultMsg m)
  | Except.ok body =>
    if isNonEmptyArray (getProp body ("lines")) then
      match pickTargetShop probe with
      | none => BridgeResponse.json 503 ("Aucun shop disponible")
      | some _ =>
        match createCheckoutOutcome t with
        | Except.ok url => BridgeResponse.redirect 302 url
        | Except.error e => BridgeResponse.json 500 (orDefaultMsg (CheckoutError.message e))
    else BridgeResponse.json 400 ("lines manquantes")

/-- A form-submission body whose `payload` field holds a string that is
not valid JSON. -/
def formBody : JSValue :=
  JSValue.obj [("payload", JSValue.str ("not json"))]

/-- Concrete stand-in for `JSON.parse` on an invalid document: it throws a
`SyntaxError`, here with message `"Unexpected token"`. -/
def badParse : String → Except String JSValue :=
  fun _ => Except.error ("Unexpected token")

/-- A direct JSON body with one (empty-object) line: passes the
`Array.isArray(body?.lines) && body.lines.length` validation. -/
def oneLineBody : JSValue :=
  JSValue.obj [("lines", JSValue.arr [JSValue.obj []])]

/-- The example line-property bag of the specification:
`{color: "red", size: 42, active: true, meta: {x:1}, skip: null}`. -/
def examplePropsObj : JSValue :=
  JSValue.obj
    [ ("color", JSValue.str ("red"))
    , ("size", JSValue.num (JSNum.val 42))
    , ("active", JSValue.bool true)
    , ("meta", JSValue.obj [("x", JSValue.num (JSNum.val 1))])
    , ("skip", JSValue.null) ]

/-- A cartCreate response carrying the single user error
`{message: "Out of stock"}`. -/
def outOfStockResp : CartCreateResponse :=
  { userErrors := some [{ field := none, message := "Out of stock" }]
    checkoutUrl := none }

/-- A cartCreate response reporting no user errors and no checkout URL. -/
def emptyResp : CartCreateResponse :=
  { userErrors := none, checkoutUrl := none }

/-- An example shop table: B fully configured, C with empty domain and
token (as when `SHOP_C_DOMAIN`/`SHOP_C_STOREFRONT_TOKEN` are unset). -/
def shopsExample : String → Option ShopConfig :=
  fun k =>
    if k == "B" then some { domain := "shop-b.example.com", sfApi := "tokenB" }
    else if k == "C" then some { domain := "", sfApi := "" }
    else none

theorem toVariantGID_gid_passthrough (s : String)
    (h : jsStartsWith s ("gid://") = true) : toVariantGID (JSValue.str s) = s := by
  have hne : s ≠ "" := fun he => absurd (he ▸ h) (by decide)
  have ht : truthy (JSValue.str s) = true := by simp [truthy, hne]
  simp [toVariantGID, ht, jsToString, h]

theorem jsStartsWith_wrap (s : String) :
    jsStartsWith ("gid://shopify/ProductVariant/" ++ s) ("gid://") = true := by
  rw [jsStartsWith, List.isPrefixOf_iff_prefix]
  have h1 : ("gid://" : String).toList <+: ("gid://shopify/ProductVariant/" : String).toList := by
    decide
  have h2 : ("gid://shopify/ProductVariant/" : String).toList
      <+: ("gid://shopify/ProductVariant/" ++ s).toList := by
    show _ <+: ("gid://shopify/ProductVariant/" ++ s).data
    rw [String.data_append]
    exact List.prefix_append _ _
  exact h1.trans h2

theorem toVariantGID_idem (v : JSValue) :
    toVariantGID (JSValue.str (toVariantGID v)) = toVariantGID v := by
  by_cases h : jsStartsWith (jsToString (if truthy v then v else JSValue.str "")) ("gid://") = true
  · have hv : toVariantGID v = jsToString (if truthy v then v else JSValue.str "") := by
      simp only [toVariantGID]
      rw [if_pos h]
    rw [hv]
    exact toVariantGID_gid_passthrough _ h
  · have hv : toVariantGID v
        = "gid://shopify/ProductVariant/" ++ jsToString (if truthy v then v else JSValue.str "") := by
      simp only [toVariantGID]
      rw [if_neg h]
    rw [hv]
    exact toVariantGID_gid_passthrough _ (jsStartsWith_wrap _)

/-- Claim C5: merchandise-identifier normalization passes a `gid://`-prefixed
input (in particular a canonical `gid://shopify/ProductVariant/...` one)
through unchanged, is idempotent on its own output, wraps any other input
as `gid://shopify/ProductVariant/<stringified input>` (12345 becomes
`gid://shopify/ProductVariant/12345`), and a line with no usable identifier
yields the canonical-GID form of the empty string. -/
theorem c5_gid_canonicalization :
    (∀ s : String, jsStartsWith s ("gid://") = true → toVariantGID (JSValue.str s) = s)
  ∧ (∀ v : JSValue, toVariantGID (JSValue.str (toVariantGID v)) = toVariantGID v)
  ∧ toVariantGID (JSValue.num (JSNum.val 12345)) = "gid://shopify/ProductVariant/12345"
  ∧ toVariantGID JSValue.undefined = "gid://shopify/ProductVariant/" ++ "" :=
  ⟨toVariantGID_gid_passthrough, toVariantGID_idem, by decide, by decide⟩

/-- Witness for C5: the canonical input `gid://shopify/ProductVariant/999`
passes through unchanged. -/
theorem c5_gid_canonicalization_witness :
    toVariantGID (JSValue.str ("gid://shopify/ProductVariant/999"))
      = "gid://shopify/ProductVariant/999" :=
  c5_gid_canonicalization.1 ("gid://shopify/ProductVariant/999") (by decide)

/-- Claim C2 as amended: the two scopes do not share one filtering rule.
At line scope, exactly the entries whose value is a string, number or
boolean survive (nullish and object/array values are dropped), so the
example property bag normalizes to color=red, size=42, active=true in
order; at payload scope only nullish values are dropped and every other
value is kept stringified, so object/array values survive there. -/
theorem c2_attribute_scopes (fs : List (String × JSValue)) :
    lineAttrs examplePropsObj = [("color", "red"), ("size", "42"), ("active", "true")]
  ∧ lineAttrs (JSValue.obj fs)
      = fs.filterMap (fun kv => if keepPrim kv.2 then some (kv.1, jsToString kv.2) else none)
  ∧ payloadAttrs (JSValue.obj fs)
      = fs.filterMap (fun kv => if isNullish kv.2 then none else some (kv.1, jsToString kv.2)) := by
  refine ⟨by decide, ?_, ?_⟩
  · have hfun : (fun kv : String × JSValue =>
        if isNullish kv.2 then none
        else if keepPrim kv.2 then some (kv.1, jsToString kv.2) else none)
      = (fun kv : String × JSValue =>
        if keepPrim kv.2 then some (kv.1, jsToString kv.2) else none) := by
      funext kv
      rcases kv with ⟨k, v⟩
      cases v <;> rfl
    simp [lineAttrs, truthy, jsTypeof, jsEntries, hfun]
  · simp [payloadAttrs, truthy, jsTypeof, jsEntries]

/-- Counterexample to C2 as stated: at payload-attribute scope an
object-typed value is not silently dropped — it is kept, stringified to
`[object Object]` — so the filtering rule is not applied identically at
both scopes. -/
theorem c2_attribute_scopes_counterexample :
    payloadAttrs (JSValue.obj [("meta", JSValue.obj [("x", JSValue.num (JSNum.val 1))])])
      = [("meta", "[object Object]")]
  ∧ [("meta", "[object Object]")] ≠ ([] : List (String × String)) :=
  ⟨by decide, by decide⟩

/-- Counterexample to C3 as stated: the input quantity -3 coerces to the
truthy number -3, which is kept as the normalized quantity, so normalized
quantities are not always ≥ 1. -/
theorem c3_quantity_counterexample :
    (normalizeLine (JSValue.obj [("quantity", JSValue.num (JSNum.val (-3)))])).quantity = -3
  ∧ ¬ (1 ≤ (normalizeLine (JSValue.obj [("quantity", JSValue.num (JSNum.val (-3)))])).quantity) :=
  ⟨by decide, by decide⟩

/-- Claim C3 as amended: the normalized quantity is the numeric coercion
of the input quantity, defaulting to 1 whenever that coercion is NaN or 0
(the falsy numbers); any other coerced value — integral or not, ≥ 1 or
not — is kept as is. A missing quantity and quantity "abc" normalize
to 1. -/
theorem c3_quantity_amended (l : JSValue) :
    (jsToNumber (getProp l ("quantity")) = JSNum.nan → (normalizeLine l).quantity = 1)
  ∧ (jsToNumber (getProp l ("quantity")) = JSNum.val 0 → (normalizeLine l).quantity = 1)
  ∧ (∀ q : ℚ, q ≠ 0 → jsToNumber (getProp l ("quantity")) = JSNum.val q →
      (normalizeLine l).quantity = q)
  ∧ (normalizeLine (JSValue.obj [])).quantity = 1
  ∧ (normalizeLine (JSValue.obj [("quantity", JSValue.str ("abc"))])).quantity = 1 := by
  refine ⟨?_, ?_, ?_, by decide, by decide⟩
  · intro h; simp [normalizeLine, normQuantity, h]
  · intro h; simp [normalizeLine, normQuantity, h]
  · intro q hq h; simp [normalizeLine, normQuantity, h, hq]

/-- Witness for C3 as amended: quantity 5 coerces to the truthy number 5
and is kept. -/
theorem c3_quantity_amended_witness :
    (normalizeLine (JSValue.obj [("quantity", JSValue.num (JSNum.val 5))])).quantity = 5 :=
  (c3_quantity_amended (JSValue.obj [("quantity", JSValue.num (JSNum.val 5))])).2.2.1 5
    (by decide) (by decide)

/-- Claim C4: a falsy (in particular absent) selling-plan field yields an
absent `sellingPlanId` (`none`, never `some ""`); a truthy one passes
through as its string conversion. -/
theorem c4_selling_plan (l : JSValue) :
    (truthy (getProp l ("selling_plan")) = false →
      (normalizeLine l).sellingPlanId = none ∧ (normalizeLine l).sellingPlanId ≠ some "")
  ∧ (truthy (getProp l ("selling_plan")) = true →
      (normalizeLine l).sellingPlanId = some (jsToString (getProp l ("selling_plan")))) := by
  constructor
  · intro h
    constructor <;> simp [normalizeLine, h]
  · intro h
    simp [normalizeLine, h]

/-- Witness for C4: a line without the field gets `none`; selling plan 7
passes through as "7". -/
theorem c4_selling_plan_witness :
    (normalizeLine (JSValue.obj [])).sellingPlanId = none
  ∧ (normalizeLine (JSValue.obj [("selling_plan", JSValue.num (JSNum.val 7))])).sellingPlanId
      = some ("7") := by
  refine ⟨((c4_selling_plan (JSValue.obj [])).1 (by decide)).1, ?_⟩
  have h := (c4_selling_plan (JSValue.obj [("selling_plan", JSValue.num (JSNum.val 7))])).2
    (by decide)
  rw [h]
  decide

/-- Helper: under a valid direct body and an available shop, a
`createCheckout` error makes the orchestrator answer 500 with the error
message (or the internal-error fallback when the message is empty). -/
theorem bridgeHandler_checkout_error (parse : String → Except String JSValue)
    (probe : String → Bool) (t : Transport) (b : JSValue) (err : CheckoutError)
    (hp : isStringVal (getProp b ("payload")) = false)
    (hl : isNonEmptyArray (getProp b ("lines")) = true)
    (hsel : probe ("B") = true ∨ probe ("C") = true)
    (hcc : createCheckoutOutcome t = Except.error err) :
    bridgeHandler parse probe t b
      = BridgeResponse.json 500 (orDefaultMsg (CheckoutError.message err)) := by
  have hbody : parseBody parse b = Except.ok b := by simp [parseBody, hp]
  have hpick : pickTargetShop probe = some ("B") ∨ pickTargetShop probe = some ("C") := by
    rcases hsel with h | h
    · left; simp [pickTargetShop, h]
    · cases hB : probe ("B")
      · right; simp [pickTargetShop, hB, h]
      · left; simp [pickTargetShop, hB]
  rcases hpick with h | h <;> simp [bridgeHandler, hbody, hl, h, hcc]

/-- Claim C1 as amended: when the body carries a string-valued `payload`
field and parsing it fails, the failure is caught (the handler, a total
function, still returns a response) but the orchestrator answers with a
500-equivalent carrying the parse error message (or `Erreur interne` when
empty), not with a 400 `invalid payload` client error. -/
theorem c1_invalid_payload_amended (parse : String → Except String JSValue)
    (probe : String → Bool) (t : Transport) (b : JSValue) (s m : String)
    (hb : truthy b = true)
    (hs : getProp b ("payload") = JSValue.str s)
    (hparse : parse s = Except.error m) :
    bridgeHandler parse probe t b = BridgeResponse.json 500 (orDefaultMsg m) := by
  have hpb : parseBody parse b = Except.error m := by
    simp [parseBody, hb, hs, isStringVal, jsAsString, hparse]
  rw [bridgeHandler, hpb]

/-- Witness for C1 as amended: the concrete invalid-payload form body
yields the 500 response with the parse error message. -/
theorem c1_invalid_payload_amended_witness :
    bridgeHandler badParse (fun _ => true) (Transport.fail ("x")) formBody
      = BridgeResponse.json 500 ("Unexpected token") := by
  have h := c1_invalid_payload_amended badParse (fun _ => true) (Transport.fail ("x")) formBody
    ("not json") ("Unexpected token") (by decide) rfl rfl
  rw [h]
  decide

/-- Counterexample to C1 as stated: on a `payload` field holding invalid
JSON the handler answers 500 with the parse error message, which is not a
400-equivalent response with error `invalid payload`. -/
theorem c1_invalid_payload_counterexample :
    bridgeHandler badParse (fun _ => true) (Transport.fail ("boom")) formBody
      = BridgeResponse.json 500 ("Unexpected token")
  ∧ BridgeResponse.json 500 ("Unexpected token") ≠ BridgeResponse.json 400 ("invalid payload") :=
  ⟨by decide, by decide⟩

/-- Claim C6: the selector returns the first shop of the fixed priority
list B, C whose probe is true (`List.find?` over the declared order); with
B unhealthy and C healthy it returns C; with no healthy shop it returns
none and the orchestrator answers 503 `Aucun shop disponible` ("no shop
available"). -/
theorem c6_shop_selector (probe : String → Bool)
    (parse : String → Except String JSValue) (t : Transport) (b : JSValue)
    (hp : isStringVal (getProp b ("payload")) = false)
    (hl : isNonEmptyArray (getProp b ("lines")) = true) :
    pickTargetShop probe = List.find? probe (["B", "C"])
  ∧ (probe ("B") = false → probe ("C") = true → pickTargetShop probe = some ("C"))
  ∧ (probe ("B") = false → probe ("C") = false →
      pickTargetShop probe = none
      ∧ bridgeHandler parse probe t b = BridgeResponse.json 503 ("Aucun shop disponible")) := by
  refine ⟨?_, ?_, ?_⟩
  · cases hB : probe ("B") <;> cases hC : probe ("C") <;>
      simp [pickTargetShop, List.find?, hB, hC]
  · intro h1 h2
    simp [pickTargetShop, h1, h2]
  · intro h1 h2
    have hpick : pickTargetShop probe = none := by simp [pickTargetShop, h1, h2]
    have hbody : parseBody parse b = Except.ok b := by simp [parseBody, hp]
    exact ⟨hpick, by simp [bridgeHandler, hbody, hl, hpick]⟩

/-- Witness for C6: probe true only on C selects C; all probes false
yields the 503 response on a valid one-line body. -/
theorem c6_shop_selector_witness :
    pickTargetShop (fun k => k == "C") = some ("C")
  ∧ bridgeHandler badParse (fun _ => false) (Transport.fail ("x")) oneLineBody
      = BridgeResponse.json 503 ("Aucun shop disponible") := by
  constructor
  · exact (c6_shop_selector (fun k => k == "C") badParse (Transport.fail ("x")) oneLineBody
      (by decide) (by decide)).2.1 (by decide) (by decide)
  · exact ((c6_shop_selector (fun _ => false) badParse (Transport.fail ("x")) oneLineBody
      (by decide) (by decide)).2.2 rfl rfl).2

/-- Claim C7: the health probe (a total function — it never raises) is
true exactly when the shop is configured with non-empty domain and token
and the single round trip returns a success status; an unknown shop or an
empty domain/token short-circuits to `(false, 0)` — false with zero
network calls — and a thrown transport call or non-success status
collapses to false. -/
theorem c7_health_probe (shops : String → Option ShopConfig) (f : FetchOutcome) (k : String) :
    ((healthCheck shops f k).1 = true ↔
      ∃ s, shops k = some s ∧ s.domain ≠ "" ∧ s.sfApi ≠ "" ∧ f = FetchOutcome.response true)
  ∧ (shops k = none → healthCheck shops f k = (false, 0))
  ∧ (∀ s, shops k = some s → (s.domain = "" ∨ s.sfApi = "") → healthCheck shops f k = (false, 0))
  ∧ (f = FetchOutcome.thrown → (healthCheck shops f k).1 = false) := by
  rcases hs : shops k with _ | s
  · refine ⟨by simp [healthCheck, hs], fun _ => by simp [healthCheck, hs], ?_,
      fun _ => by simp [healthCheck, hs]⟩
    intro s2 hcontra _
    simp at hcontra
  · by_cases hd : (s.domain == "" || s.sfApi == "") = true
    · have hbad : s.domain = "" ∨ s.sfApi = "" := by simpa using hd
      have hres : healthCheck shops f k = (false, 0) := by simp [healthCheck, hs, hd]
      refine ⟨?_, ?_, ?_, ?_⟩
      · rw [hres]
        constructor
        · intro h
          exact absurd h (by decide)
        · rintro ⟨s2, hs2, hdom, hapi, _⟩
          injection hs2 with hss
          subst hss
          rcases hbad with h | h
          · exact absurd h hdom
          · exact absurd h hapi
      · intro h
        simp at h
      · intro s2 _ _
        exact hres
      · intro _
        rw [hres]
    · have hd2 : ¬ (s.domain = "" ∨ s.sfApi = "") := by
        intro hcontra
        refine hd ?_
        rcases hcontra with h | h <;> simp [h]
      push_neg at hd2
      have hguard : (s.domain == "" || s.sfApi == "") = false := by
        simp [hd2.1, hd2.2]
      refine ⟨?_, ?_, ?_, ?_⟩
      · rcases f with _ | ok
        · have hres : healthCheck shops FetchOutcome.thrown k = (false, 1) := by
            simp [healthCheck, hs, hguard]
          rw [hres]
          constructor
          · intro h
            exact absurd h (by decide)
          · rintro ⟨s2, _, _, _, hcontra⟩
            cases hcontra
        · have hres : healthCheck shops (FetchOutcome.response ok) k = (ok, 1) := by
            simp [healthCheck, hs, hguard]
          rw [hres]
          constructor
          · intro h
            have hok : ok = true := h
            exact ⟨s, rfl, hd2.1, hd2.2, by rw [hok]⟩
          · rintro ⟨s2, hs2, _, _, hresp⟩
            injection hresp
      · intro h
        simp at h
      · intro s2 hs2 hbad2
        injection hs2 with hss
        subst hss
        exact absurd hbad2 (by
          intro hcontra
          rcases hcontra with h | h
          · exact absurd h hd2.1
          · exact absurd h hd2.2)
      · intro hf
        subst hf
        simp [healthCheck, hs, hguard]

/-- Witness for C7: shop C of the example table (empty domain/token)
probes false with no network call; a thrown call on configured shop B
probes false. -/
theorem c7_health_probe_witness :
    healthCheck shopsExample FetchOutcome.thrown ("C") = (false, 0)
  ∧ (healthCheck shopsExample FetchOutcome.thrown ("B")).1 = false := by
  constructor
  · exact (c7_health_probe shopsExample FetchOutcome.thrown ("C")).2.2.1
      { domain := "", sfApi := "" } (by decide) (Or.inl rfl)
  · exact (c7_health_probe shopsExample FetchOutcome.thrown ("B")).2.2.2 rfl

/-- Claim C8: a response carrying user errors makes `createCheckout`
fail with a user-error kind whose message joins the underlying messages
with `'; '`, and the orchestrator answers 500 with that message; for the
single error `{message: "Out of stock"}` the responded message is exactly
`Out of stock`. -/
theorem c8_user_errors (parse : String → Except String JSValue) (probe : String → Bool)
    (b : JSValue) (resp : CartCreateResponse) (e : UserError) (es : List UserError)
    (hp : isStringVal (getProp b ("payload")) = false)
    (hl : isNonEmptyArray (getProp b ("lines")) = true)
    (hsel : probe ("B") = true ∨ probe ("C") = true)
    (herr : resp.userErrors = some (e :: es)) :
    createCheckoutOutcome (Transport.reply resp)
      = Except.error (CheckoutError.userError
          (String.intercalate ("; ") (List.map UserError.message (e :: es))))
  ∧ bridgeHandler parse probe (Transport.reply resp) b
      = BridgeResponse.json 500
          (orDefaultMsg (String.intercalate ("; ") (List.map UserError.message (e :: es))))
  ∧ createCheckoutOutcome (Transport.reply outOfStockResp)
      = Except.error (CheckoutError.userError ("Out of stock"))
  ∧ bridgeHandler parse probe (Transport.reply outOfStockResp) b
      = BridgeResponse.json 500 ("Out of stock") := by
  have hcc : createCheckoutOutcome (Transport.reply resp)
      = Except.error (CheckoutError.userError
          (String.intercalate ("; ") (List.map UserError.message (e :: es)))) := by
    simp [createCheckoutOutcome, herr]
  have hccOut : createCheckoutOutcome (Transport.reply outOfStockResp)
      = Except.error (CheckoutError.userError ("Out of stock")) := rfl
  refine ⟨hcc, ?_, hccOut, ?_⟩
  · exact bridgeHandler_checkout_error parse probe _ b _ hp hl hsel hcc
  · have h4 := bridgeHandler_checkout_error parse probe _ b _ hp hl hsel hccOut
    rw [h4]
    decide

/-- Witness for C8: the concrete out-of-stock response produces the 500
answer with message exactly `Out of stock`. -/
theorem c8_user_errors_witness :
    bridgeHandler badParse (fun _ => true) (Transport.reply outOfStockResp) oneLineBody
      = BridgeResponse.json 500 ("Out of stock") :=
  (c8_user_errors badParse (fun _ => true) oneLineBody outOfStockResp
    { field := none, message := "Out of stock" } [] (by decide) (by decide)
    (Or.inl rfl) rfl).2.2.2

/-- Claim C9: a response with no user errors and no checkout URL makes
`createCheckout` fail with the missing-URL kind (`checkoutUrl
introuvable`), and the orchestrator answers 500 and never redirects. -/
theorem c9_missing_url (parse : String → Except String JSValue) (probe : String → Bool)
    (b : JSValue) (resp : CartCreateResponse)
    (hp : isStringVal (getProp b ("payload")) = false)
    (hl : isNonEmptyArray (getProp b ("lines")) = true)
    (hsel : probe ("B") = true ∨ probe ("C") = true)
    (herr : resp.userErrors = none ∨ resp.userErrors = some [])
    (hurl : resp.checkoutUrl = none) :
    createCheckoutOutcome (Transport.reply resp)
      = Except.error (CheckoutError.missingUrl ("checkoutUrl introuvable"))
  ∧ bridgeHandler parse probe (Transport.reply resp) b
      = BridgeResponse.json 500 ("checkoutUrl introuvable")
  ∧ ∀ st loc, bridgeHandler parse probe (Transport.reply resp) b
      ≠ BridgeResponse.redirect st loc := by
  have hcc : createCheckoutOutcome (Transport.reply resp)
      = Except.error (CheckoutError.missingUrl ("checkoutUrl introuvable")) := by
    rcases herr with h | h <;> simp [createCheckoutOutcome, h, hurl, checkoutUrlOutcome]
  have hb := bridgeHandler_checkout_error parse probe _ b _ hp hl hsel hcc
  have hb2 : bridgeHandler parse probe (Transport.reply resp) b
      = BridgeResponse.json 500 ("checkoutUrl introuvable") := by
    rw [hb]
    decide
  refine ⟨hcc, hb2, ?_⟩
  intro st loc
  rw [hb2]
  intro hcontra
  cases hcontra

/-- Witness for C9: the concrete empty response yields the 500
missing-URL answer. -/
theorem c9_missing_url_witness :
    bridgeHandler badParse (fun _ => true) (Transport.reply emptyResp) oneLineBody
      = BridgeResponse.json 500 ("checkoutUrl introuvable") :=
  (c9_missing_url badParse (fun _ => true) oneLineBody emptyResp (by decide) (by decide)
    (Or.inl rfl) (Or.inl rfl) rfl).2.1

/-- Helper: the URL step succeeds exactly on a present, non-empty URL. -/
theorem checkoutUrlOutcome_ok_iff (url : Option String) (u : String) :
    checkoutUrlOutcome url = Except.ok u ↔ url = some u ∧ u ≠ "" := by
  rcases url with _ | v
  · simp [checkoutUrlOutcome]
  · by_cases hv : v = ""
    · subst hv
      constructor
      · intro h
        simp [checkoutUrlOutcome] at h
      · rintro ⟨h1, h2⟩
        injection h1 with h1
        exact absurd h1.symm h2
    · constructor
      · intro h
        have h2 : (Except.ok v : Except CheckoutError String) = Except.ok u := by
          rw [← h]
          simp [checkoutUrlOutcome, hv]
        injection h2 with h2
        subst h2
        exact ⟨rfl, hv⟩
      · rintro ⟨h1, h2⟩
        injection h1 with h1
        subst h1
        simp [checkoutUrlOutcome, hv]

/-- Helper: a successful checkout outcome never carries an empty URL. -/
theorem createCheckoutOutcome_ok_ne_empty (t : Transport) (u : String)
    (h : createCheckoutOutcome t = Except.ok u) : u ≠ "" := by
  rcases t with m | resp
  · simp [createCheckoutOutcome] at h
  · rcases hu : resp.userErrors with _ | l
    · rw [createCheckoutOutcome, hu] at h
      exact ((checkoutUrlOutcome_ok_iff resp.checkoutUrl u).mp h).2
    · rcases l with _ | ⟨e, es⟩
      · rw [createCheckoutOutcome, hu] at h
        exact ((checkoutUrlOutcome_ok_iff resp.checkoutUrl u).mp h).2
      · rw [createCheckoutOutcome, hu] at h
        cases h

/-- Claim C10: with no user errors reported, checkout creation succeeds
exactly when the checkout URL field holds a non-empty string — a present
but empty URL triggers the same missing-URL failure as an absent one — and
therefore every 302 redirect the orchestrator issues has a non-empty
Location URL. -/
theorem c10_redirect_nonempty (parse : String → Except String JSValue)
    (probe : String → Bool) (t : Transport) (b : JSValue)
    (resp : CartCreateResponse) (u : String)
    (hne : resp.userErrors = none ∨ resp.userErrors = some []) :
    (createCheckoutOutcome (Transport.reply resp) = Except.ok u ↔
      resp.checkoutUrl = some u ∧ u ≠ "")
  ∧ (resp.checkoutUrl = some "" →
      createCheckoutOutcome (Transport.reply resp)
        = Except.error (CheckoutError.missingUrl ("checkoutUrl introuvable")))
  ∧ (∀ st loc, bridgeHandler parse probe t b = BridgeResponse.redirect st loc → loc ≠ "") := by
  have hred : createCheckoutOutcome (Transport.reply resp) = checkoutUrlOutcome resp.checkoutUrl := by
    rcases hne with h | h <;> rw [createCheckoutOutcome, h]
  refine ⟨?_, ?_, ?_⟩
  · rw [hred]
    exact checkoutUrlOutcome_ok_iff resp.checkoutUrl u
  · intro hurl
    rw [hred, hurl]
    rfl
  · intro st loc hr
    rw [bridgeHandler] at hr
    split at hr
    · simp at hr
    · split at hr
      · split at hr
        · simp at hr
        · split at hr
          · rename_i url heq
            injection hr with h1 h2
            subst h2
            exact createCheckoutOutcome_ok_ne_empty t url heq
          · simp at hr
      · simp at hr

/-- Witness for C10: a response with a concrete non-empty URL and no
errors succeeds with that URL. -/
theorem c10_redirect_nonempty_witness :
    createCheckoutOutcome
        (Transport.reply { userErrors := none, checkoutUrl := some ("https://shop-b.example.com/checkout") })
      = Except.ok ("https://shop-b.example.com/checkout") :=
  ((c10_redirect_nonempty badParse (fun _ => true) (Transport.fail ("x")) oneLineBody
    { userErrors := none, checkoutUrl := some ("https://shop-b.example.com/checkout") }
    ("https://shop-b.example.com/checkout") (Or.inl rfl)).1).mpr ⟨rfl, by decide⟩
